import Mathlib

/-!
Shallow embedding of `epson-s1d135xx.c` (Epson S1D135xx e-paper controller
driver primitives).  Every driver operation is modelled as a function from an
environment (the responses of the external collaborators: GPIO levels, SPI
input bytes, file open/transfer results) and the current read positions into
those response streams, to the operation's return value, the new positions and
the ordered list of externally observable events it performs.
-/

/-- Events observable at the driver's external interfaces (GPIO, SPI
transport, init-code file transfer, delays), in the order the C code performs
them.  Command and parameter words carry their wire bytes (big-endian pair). -/
inductive Ev where
  | gpioSet (pin v : Nat)
  | gpioGet (pin : Nat)
  | cmdB (bytes : Nat × Nat)
  | paramB (bytes : Nat × Nat)
  | spiRead (n : Nat)
  | transferFile
  | delay (ms : Nat)
deriving DecidableEq

/-- Environment: responses of the external collaborators.  `gpioIn t pin` is
the level returned by the t-th `gpio->get` call, `spiIn i` the i-th byte read
from the SPI transport, `fOpenOk` whether `f_open` on the init-code file
succeeds, `transferStat` the return status of `transfer_file`. -/
structure Env where
  gpioIn : Nat → Nat → Nat
  spiIn : Nat → Nat
  fOpenOk : Bool
  transferStat : Int

/-- Read positions into the environment's response streams. -/
structure St where
  spiPos : Nat
  gpioPos : Nat
deriving DecidableEq

/-- Modelled from the spec: the sentinel "no pin" value `PL_GPIO_NONE` of
`pl/gpio.h` (header not under src/); only its distinctness from real pin
numbers matters. -/
def PL_GPIO_NONE : Nat := 4294967295

/-- Modelled from the spec: `enum pl_epdc_power_state` from `pl/epdc.h`
(not under src/): one of Off, Run, Standby, Sleep. -/
inductive PlEpdcPowerState where
  | run
  | standby
  | sleep
  | off
deriving DecidableEq

/-- Modelled from the spec: the table index of each power state.  Off is
special-cased before the power-command table lookup ("Off is unsupported, not
index 0"), so Run, Standby, Sleep index the table `{RUN, STBY, SLEEP}` in
order. -/
def PlEpdcPowerState.idx : PlEpdcPowerState → Nat
  | .run => 0
  | .standby => 1
  | .sleep => 2
  | .off => 3

/-- Pin assignments of `struct s1d135xx_data` (header not under src/; exactly
the fields the C file uses). -/
structure S1d135xxData where
  reset : Nat
  cs0 : Nat
  hdc : Nat
  hrdy : Nat

/-- Device context `struct s1d135xx` as used by the C file.  The
`power_state` field is modelled from the spec: "the currently believed power
state" attribute of the Device Context (the struct is declared in a header not
under src/). -/
structure S1d135xx where
  data : S1d135xxData
  hrdy_mask : Nat
  hrdy_result : Nat
  power_state : PlEpdcPowerState

/-- `S1D135XX_WF_MODE(_wf)`: `(((_wf) << 8) & 0x0F00)`. -/
def S1D135XX_WF_MODE (wf : Nat) : Nat := (wf <<< 8) &&& 0x0F00

def S1D135XX_XMASK : Nat := 0x01FF

def S1D135XX_YMASK : Nat := 0x03FF

def S1D135XX_HRDY_TIMEOUT : Nat := 3000

/-- `S1D135XX_INIT_CODE_CHECKSUM_OK`: `(1 << 15)`. -/
def S1D135XX_INIT_CODE_CHECKSUM_OK : Nat := 1 <<< 15

def S1D135XX_CMD_INIT_SET : Nat := 0x00

def S1D135XX_CMD_RUN : Nat := 0x02

def S1D135XX_CMD_STBY : Nat := 0x04

def S1D135XX_CMD_SLEEP : Nat := 0x05

def S1D135XX_CMD_INIT_STBY : Nat := 0x06

def S1D135XX_CMD_READ_REG : Nat := 0x10

def S1D135XX_CMD_WRITE_REG : Nat := 0x11

def S1D135XX_CMD_WAIT_DSPE_TRG : Nat := 0x28

def S1D135XX_CMD_WAIT_DSPE_FREND : Nat := 0x29

def S1D135XX_CMD_UPDATE_FULL : Nat := 0x33

def S1D135XX_CMD_UPDATE_FULL_AREA : Nat := 0x34

def S1D135XX_CMD_EPD_GDRV_CLR : Nat := 0x37

/-- Modelled from the spec: register identifiers declared in
`epson-s1d135xx.h` (not under src/); the claims do not depend on the numeric
values, only on which register each operation names. -/
def S1D135XX_REG_SOFTWARE_RESET : Nat := 0x0008

/-- Modelled from the spec: see `S1D135XX_REG_SOFTWARE_RESET`. -/
def S1D135XX_REG_SYSTEM_STATUS : Nat := 0x000A

/-- Modelled from the spec: see `S1D135XX_REG_SOFTWARE_RESET`. -/
def S1D135XX_REG_SEQ_AUTOBOOT_CMD : Nat := 0x02A8

/-- `struct pl_area` from `pl/types.h` (not under src/): rectangle descriptor
(left, top, width, height) in chip pixel-address space. -/
structure PlArea where
  left : Nat
  top : Nat
  width : Nat
  height : Nat

/-- `htobe16`: the two bytes of a 16-bit word as written to the wire, most
significant byte first. -/
def htobe16 (w : Nat) : Nat × Nat := (w / 256 % 256, w % 256)

/-- `be16toh`: recombine a wire byte pair (most significant first) into the
host word. -/
def be16toh (b : Nat × Nat) : Nat := b.1 * 256 + b.2

/-- `set_cs`: drive the chip-select line (`p->gpio->set(p->data->cs0, state)`). -/
def set_cs (p : S1d135xx) (state : Nat) : List Ev :=
  [.gpioSet p.data.cs0 state]

/-- `send_cmd`: convert the command word to big-endian and write its two bytes
over SPI. -/
def send_cmd (_p : S1d135xx) (cmd : Nat) : List Ev :=
  [.cmdB (htobe16 cmd)]

/-- `send_param`: convert the parameter word to big-endian and write its two
bytes over SPI. -/
def send_param (param : Nat) : List Ev :=
  [.paramB (htobe16 param)]

/-- `send_params`: send each parameter in order via `send_param`. -/
def send_params (params : List Nat) : List Ev :=
  params.foldl (fun acc w => acc ++ send_param w) []

/-- `mdelay`: a fixed millisecond delay. -/
def mdelay (ms : Nat) : List Ev :=
  [.delay ms]

/-- One `spi_read_bytes(&val, 2)` call: returns the two raw bytes in wire
order and advances the SPI input stream. -/
def spi_read_word (env : Env) (s : St) : (Nat × Nat) × St × List Ev :=
  ((env.spiIn s.spiPos, env.spiIn (s.spiPos + 1)),
   { s with spiPos := s.spiPos + 2 }, [.spiRead 2])

/-- `p->gpio->get(pin)`: read a pin level from the environment and advance the
GPIO response stream. -/
def gpio_get (env : Env) (pin : Nat) (s : St) : Nat × St × List Ev :=
  (env.gpioIn s.gpioPos pin, { s with gpioPos := s.gpioPos + 1 }, [.gpioGet pin])

/-- `s1d135xx_read_reg`: frame `READ_REG` with the register id as parameter,
read two 16-bit words, discard the first (the C code overwrites `val`) and
return the second converted from big-endian. -/
def s1d135xx_read_reg (env : Env) (p : S1d135xx) (reg : Nat) (s : St) :
    Nat × St × List Ev :=
  let r1 := spi_read_word env s
  let r2 := spi_read_word env r1.2.1
  (be16toh r2.1, r2.2.1,
    set_cs p 0 ++ send_cmd p S1D135XX_CMD_READ_REG ++ send_param reg ++
      r1.2.2 ++ r2.2.2 ++ set_cs p 1)

/-- `s1d135xx_write_reg`: frame `WRITE_REG` followed by the parameters
`reg`, `val`. -/
def s1d135xx_write_reg (p : S1d135xx) (reg val : Nat) : List Ev :=
  set_cs p 0 ++ send_cmd p S1D135XX_CMD_WRITE_REG ++ send_params [reg, val] ++
    set_cs p 1

/-- `s1d135xx_cmd`: generic framed command with an arbitrary parameter list. -/
def s1d135xx_cmd (p : S1d135xx) (cmd : Nat) (params : List Nat) : List Ev :=
  set_cs p 0 ++ send_cmd p cmd ++ send_params params ++ set_cs p 1

/-- `s1d135xx_hard_reset`: nothing if no reset pin is configured, otherwise
drive it low, hold 4 ms, drive it high, hold 10 ms. -/
def s1d135xx_hard_reset (p : S1d135xx) : List Ev :=
  if p.data.reset = PL_GPIO_NONE then []
  else [.gpioSet p.data.reset 0] ++ mdelay 4 ++ [.gpioSet p.data.reset 1] ++
    mdelay 10

/-- `get_hrdy`: dedicated HRDY pin if configured, otherwise read the system
status register and test `(status & hrdy_mask) == hrdy_result`. -/
def get_hrdy (env : Env) (p : S1d135xx) (s : St) : Nat × St × List Ev :=
  if p.data.hrdy ≠ PL_GPIO_NONE then
    gpio_get env p.data.hrdy s
  else
    let r := s1d135xx_read_reg env p S1D135XX_REG_SYSTEM_STATUS s
    ((if r.1 &&& p.hrdy_mask = p.hrdy_result then 1 else 0), r.2.1, r.2.2)

/-- The loop `while (!get_hrdy(p) && --timeout) mdelay(1);` of
`s1d135xx_wait_idle`, returning the final value of `timeout`.  The argument is
the current `timeout` value on loop entry; a successful check exits with it
unchanged, a failed check decrements it and exits when it reaches zero. -/
def wait_idle_aux (env : Env) (p : S1d135xx) : Nat → St → Nat × St × List Ev
  | 0, s => (0, s, [])
  | t + 1, s =>
    let c := get_hrdy env p s
    if c.1 ≠ 0 then (t + 1, c.2.1, c.2.2)
    else if t = 0 then (0, c.2.1, c.2.2)
    else
      let r := wait_idle_aux env p t c.2.1
      (r.1, r.2.1, c.2.2 ++ mdelay 1 ++ r.2.2)

/-- `s1d135xx_wait_idle`: poll readiness for at most
`S1D135XX_HRDY_TIMEOUT` checks at 1 ms granularity; return 0 on readiness and
-1 ("HRDY timeout") if `timeout` reached zero. -/
def s1d135xx_wait_idle (env : Env) (p : S1d135xx) (s : St) :
    Int × St × List Ev :=
  let r := wait_idle_aux env p S1D135XX_HRDY_TIMEOUT s
  (if r.1 = 0 then -1 else 0, r.2.1, r.2.2)

/-- `s1d135xx_soft_reset`: write 0 to the software-reset register, then wait
idle. -/
def s1d135xx_soft_reset (env : Env) (p : S1d135xx) (s : St) :
    Int × St × List Ev :=
  let w := s1d135xx_wait_idle env p s
  (w.1, w.2.1, s1d135xx_write_reg p S1D135XX_REG_SOFTWARE_RESET 0 ++ w.2.2)

/-- `s1d135xx_load_init_code`: open the init-code file, wait idle, stream the
blob inside one chip-select window framed by `INIT_SET`, wait idle, check the
transfer status, read the autoboot checksum register and test the checksum-ok
bit, then issue `INIT_STBY` in its own window, delay 100 ms and report the
final `wait_idle` result. -/
def s1d135xx_load_init_code (env : Env) (p : S1d135xx) (s : St) :
    Int × St × List Ev :=
  if !env.fOpenOk then (-1, s, [])
  else
    let w1 := s1d135xx_wait_idle env p s
    if w1.1 ≠ 0 then (-1, w1.2.1, w1.2.2)
    else
      let ev1 := w1.2.2 ++ set_cs p 0 ++ send_cmd p S1D135XX_CMD_INIT_SET ++
        [.transferFile] ++ set_cs p 1
      let w2 := s1d135xx_wait_idle env p w1.2.1
      if w2.1 ≠ 0 then (-1, w2.2.1, ev1 ++ w2.2.2)
      else if env.transferStat ≠ 0 then (-1, w2.2.1, ev1 ++ w2.2.2)
      else
        let ck := s1d135xx_read_reg env p S1D135XX_REG_SEQ_AUTOBOOT_CMD w2.2.1
        if ck.1 &&& S1D135XX_INIT_CODE_CHECKSUM_OK = 0 then
          (-1, ck.2.1, ev1 ++ w2.2.2 ++ ck.2.2)
        else
          let w3 := s1d135xx_wait_idle env p ck.2.1
          (w3.1, w3.2.1,
            ev1 ++ w2.2.2 ++ ck.2.2 ++ set_cs p 0 ++
              send_cmd p S1D135XX_CMD_INIT_STBY ++ set_cs p 1 ++ mdelay 100 ++
              w3.2.2)

/-- `s1d135xx_wait_dspe_trig`: frame `WAIT_DSPE_TRG`, then wait idle. -/
def s1d135xx_wait_dspe_trig (env : Env) (p : S1d135xx) (s : St) :
    Int × St × List Ev :=
  let w := s1d135xx_wait_idle env p s
  (w.1, w.2.1,
    set_cs p 0 ++ send_cmd p S1D135XX_CMD_WAIT_DSPE_TRG ++ set_cs p 1 ++ w.2.2)

/-- `s1d135xx_update`: frame `UPDATE_FULL` with the waveform-mode parameter,
wait idle, then perform the trigger handshake. -/
def s1d135xx_update (env : Env) (p : S1d135xx) (wfid : Nat) (s : St) :
    Int × St × List Ev :=
  let ev0 := set_cs p 0 ++ send_cmd p S1D135XX_CMD_UPDATE_FULL ++
    send_param (S1D135XX_WF_MODE wfid) ++ set_cs p 1
  let w := s1d135xx_wait_idle env p s
  if w.1 ≠ 0 then (-1, w.2.1, ev0 ++ w.2.2)
  else
    let t := s1d135xx_wait_dspe_trig env p w.2.1
    (t.1, t.2.1, ev0 ++ w.2.2 ++ t.2.2)

/-- `s1d135xx_update_area`: frame `UPDATE_FULL_AREA` with the waveform mode
and the area coordinates masked to the hardware widths, wait idle, then
perform the trigger handshake. -/
def s1d135xx_update_area (env : Env) (p : S1d135xx) (wfid : Nat)
    (area : PlArea) (s : St) : Int × St × List Ev :=
  let params : List Nat :=
    [S1D135XX_WF_MODE wfid, area.left &&& S1D135XX_XMASK,
     area.top &&& S1D135XX_YMASK, area.width &&& S1D135XX_XMASK,
     area.height &&& S1D135XX_YMASK]
  let ev0 := set_cs p 0 ++ send_cmd p S1D135XX_CMD_UPDATE_FULL_AREA ++
    send_params params ++ set_cs p 1
  let w := s1d135xx_wait_idle env p s
  if w.1 ≠ 0 then (-1, w.2.1, ev0 ++ w.2.2)
  else
    let t := s1d135xx_wait_dspe_trig env p w.2.1
    (t.1, t.2.1, ev0 ++ w.2.2 ++ t.2.2)

/-- `s1d135xx_wait_update_end`: frame `WAIT_DSPE_FREND`, then wait idle. -/
def s1d135xx_wait_update_end (env : Env) (p : S1d135xx) (s : St) :
    Int × St × List Ev :=
  let w := s1d135xx_wait_idle env p s
  (w.1, w.2.1,
    set_cs p 0 ++ send_cmd p S1D135XX_CMD_WAIT_DSPE_FREND ++ set_cs p 1 ++
      w.2.2)

/-- The power-command table `pwr_cmds[] = {RUN, STBY, SLEEP}`. -/
def pwr_cmds : List Nat :=
  [S1D135XX_CMD_RUN, S1D135XX_CMD_STBY, S1D135XX_CMD_SLEEP]

/-- `s1d135xx_set_power_state`: Off is a warning no-op returning success;
otherwise wait idle, frame the one-word power command selected from
`pwr_cmds`, and wait idle again. -/
def s1d135xx_set_power_state (env : Env) (p : S1d135xx)
    (state : PlEpdcPowerState) (s : St) : Int × St × List Ev :=
  if state = .off then (0, s, [])
  else
    let w1 := s1d135xx_wait_idle env p s
    if w1.1 ≠ 0 then (-1, w1.2.1, w1.2.2)
    else
      let w2 := s1d135xx_wait_idle env p w1.2.1
      (w2.1, w2.2.1,
        w1.2.2 ++ set_cs p 0 ++ send_cmd p (pwr_cmds.getD state.idx 0) ++
          set_cs p 1 ++ w2.2.2)

/-- `s1d135xx_init_gate_drv`: reach Run state, then frame `EPD_GDRV_CLR` and
wait idle. -/
def s1d135xx_init_gate_drv (env : Env) (p : S1d135xx) (s : St) :
    Int × St × List Ev :=
  let ps := s1d135xx_set_power_state env p .run s
  if ps.1 ≠ 0 then (-1, ps.2.1, ps.2.2)
  else
    let w := s1d135xx_wait_idle env p ps.2.1
    (w.1, w.2.1,
      ps.2.2 ++ set_cs p 0 ++ send_cmd p S1D135XX_CMD_EPD_GDRV_CLR ++
        set_cs p 1 ++ w.2.2)

/-- Modelled from the spec: the EPDC-layer wrapper (code not under src/) that
remembers the requested power state in the device context; "the device
context's remembered power state is updated only on overall success". -/
def set_power_state_epdc (env : Env) (p : S1d135xx)
    (state : PlEpdcPowerState) (s : St) :
    (Int × S1d135xx) × St × List Ev :=
  let r := s1d135xx_set_power_state env p state s
  if r.1 = 0 then ((0, { p with power_state := state }), r.2.1, r.2.2)
  else ((r.1, p), r.2.1, r.2.2)

/-- Command words (as wire byte pairs) extracted from an event list. -/
def cmdsOf (evs : List Ev) : List (Nat × Nat) :=
  evs.filterMap fun e =>
    match e with
    | .cmdB b => some b
    | _ => none

/-- Transitions driven on the chip-select pin `c0`, extracted from an event
list in order. -/
def csSets (c0 : Nat) (evs : List Ev) : List Nat :=
  evs.filterMap fun e =>
    match e with
    | .gpioSet pin v => if pin = c0 then some v else none
    | _ => none

/-- Chip-select discipline: the transition sequence is a concatenation of
assert(0)/deassert(1) pairs. -/
def wellFramed : List Nat → Bool
  | [] => true
  | 0 :: 1 :: r => wellFramed r
  | _ => false

/-- Chip-select discipline of an event list on chip-select pin `c0`: the
transitions are well framed, the number of asserts equals the number of
deasserts, and the line ends deasserted (or was never touched). -/
def csDisciplined (c0 : Nat) (evs : List Ev) : Prop :=
  wellFramed (csSets c0 evs) = true ∧
  (csSets c0 evs).count 0 = (csSets c0 evs).count 1 ∧
  (csSets c0 evs = [] ∨ (csSets c0 evs).getLast? = some 1)

/-- The readiness value of a single `get_hrdy` check performed at stream
position `s`. -/
def checkVal (env : Env) (p : S1d135xx) (s : St) : Nat :=
  (get_hrdy env p s).1

/-- The stream position after a single `get_hrdy` check (the loop's 1 ms
delay does not move the response streams). -/
def stepChk (env : Env) (p : S1d135xx) (s : St) : St :=
  (get_hrdy env p s).2.1

/-- A device context with all pins wired (HRDY pin 4), for concrete runs. -/
def pPin : S1d135xx := ⟨⟨1, 2, 3, 4⟩, 0, 0, .sleep⟩

/-- A device context whose reset pin is the "none" sentinel. -/
def pNoReset : S1d135xx := ⟨⟨PL_GPIO_NONE, 2, 3, 4⟩, 0, 0, .sleep⟩

/-- A device context in register-poll mode: no HRDY pin, and a mask/result
pair (0, 0) under which the status test always reads ready. -/
def pReg : S1d135xx := ⟨⟨1, 2, 3, PL_GPIO_NONE⟩, 0, 0, .sleep⟩

/-- Environment whose GPIO pins always read level `v`, with all-zero SPI
input, a successfully opened init-code file and a clean transfer status. -/
def envConst (v : Nat) : Env := ⟨fun _ _ => v, fun _ => 0, true, 0⟩

/-- Environment with always-ready GPIO pins and all SPI input bytes 0xFF (so
the init-code checksum-ok bit reads set). -/
def envFF : Env := ⟨fun _ _ => 1, fun _ => 0xFF, true, 0⟩

theorem cmdsOf_append (a b : List Ev) : cmdsOf (a ++ b) = cmdsOf a ++ cmdsOf b :=
  List.filterMap_append a b _

theorem csSets_append (c0 : Nat) (a b : List Ev) :
    csSets c0 (a ++ b) = csSets c0 a ++ csSets c0 b :=
  List.filterMap_append a b _

theorem wellFramed_append (a b : List Nat) (ha : wellFramed a = true)
    (hb : wellFramed b = true) : wellFramed (a ++ b) = true := by
  induction a using wellFramed.induct with
  | case1 => simpa using hb
  | case2 r ih => simp only [wellFramed] at ha ⊢; simp [ih ha]
  | case3 => simp_all [wellFramed]

theorem wellFramed_count (l : List Nat) (h : wellFramed l = true) :
    l.count 0 = l.count 1 := by
  induction l using wellFramed.induct with
  | case1 => rfl
  | case2 r ih => simp only [wellFramed] at h; simp [List.count_cons, ih h]
  | case3 => simp_all [wellFramed]

theorem wellFramed_last (l : List Nat) (h : wellFramed l = true) :
    l = [] ∨ l.getLast? = some 1 := by
  induction l using wellFramed.induct with
  | case1 => exact Or.inl rfl
  | case2 r ih =>
    simp only [wellFramed] at h
    rcases ih h with h1 | h1
    · subst h1; simp
    · right
      rw [List.getLast?_cons_cons]
      cases r with
      | nil => simp at h1
      | cons a t => rw [List.getLast?_cons_cons]; exact h1
  | case3 => simp_all [wellFramed]

theorem csDisciplined_of_wf {c0 : Nat} {evs : List Ev}
    (h : wellFramed (csSets c0 evs) = true) : csDisciplined c0 evs :=
  ⟨h, wellFramed_count _ h, wellFramed_last _ h⟩

/-- One step of the polling loop when the check succeeds: exit at once with
the bound untouched. -/
theorem wait_idle_aux_ready (env : Env) (p : S1d135xx) (t : Nat) (s : St)
    (h : (get_hrdy env p s).1 ≠ 0) :
    wait_idle_aux env p (t + 1) s =
      (t + 1, (get_hrdy env p s).2.1, (get_hrdy env p s).2.2) := by
  rw [wait_idle_aux]
  simp [h]

/-- One readiness check exits `wait_idle` at once with the bound untouched:
the result state and events are exactly those of the single `get_hrdy`. -/
theorem wait_idle_first_ready (env : Env) (p : S1d135xx) (s : St)
    (h : (get_hrdy env p s).1 ≠ 0) :
    s1d135xx_wait_idle env p s =
      (0, (get_hrdy env p s).2.1, (get_hrdy env p s).2.2) := by
  have h3 : S1D135XX_HRDY_TIMEOUT = 2999 + 1 := rfl
  simp only [s1d135xx_wait_idle, h3, wait_idle_aux_ready env p 2999 s h]
  simp

/-- If the first `k` checks fail and check `k` succeeds before the bound, the
loop exits with `timeout = t - k`. -/
theorem wait_idle_aux_succ (env : Env) (p : S1d135xx) :
    ∀ k t s, k < t →
      (∀ j, j < k → checkVal env p ((stepChk env p)^[j] s) = 0) →
      checkVal env p ((stepChk env p)^[k] s) ≠ 0 →
      (wait_idle_aux env p t s).1 = t - k
  | 0, t, s, hk, _, hc => by
    match t, hk with
    | t' + 1, _ =>
      simp only [Function.iterate_zero, id] at hc
      simp [wait_idle_aux, checkVal] at hc ⊢
      simp [hc]
  | k + 1, t, s, hk, hall, hc => by
    match t, hk with
    | t' + 1, hk =>
      have h0 : (get_hrdy env p s).1 = 0 := by
        have := hall 0 (Nat.succ_pos k)
        simpa [checkVal] using this
      have ht' : t' ≠ 0 := by omega
      have hrec := wait_idle_aux_succ env p k t' ((stepChk env p) s)
        (by omega)
        (fun j hj => by
          have := hall (j + 1) (by omega)
          simpa [Function.iterate_succ_apply] using this)
        (by
          have := hc
          simpa [Function.iterate_succ_apply] using this)
      simp only [wait_idle_aux, h0, ite_false, ht']
      simp only [h0, if_neg, stepChk] at hrec ⊢
      simp [hrec, ht']

/-- If every check up to the bound fails, the loop exits with `timeout = 0`. -/
theorem wait_idle_aux_timeout (env : Env) (p : S1d135xx) :
    ∀ t s,
      (∀ j, j < t → checkVal env p ((stepChk env p)^[j] s) = 0) →
      (wait_idle_aux env p t s).1 = 0
  | 0, s, _ => rfl
  | t + 1, s, hall => by
    have h0 : (get_hrdy env p s).1 = 0 := by
      have := hall 0 (Nat.succ_pos t)
      simpa [checkVal] using this
    by_cases ht : t = 0
    · subst ht; simp [wait_idle_aux, h0]
    · have hrec := wait_idle_aux_timeout env p t ((stepChk env p) s)
        (fun j hj => by
          have := hall (j + 1) (by omega)
          simpa [Function.iterate_succ_apply] using this)
      simp only [wait_idle_aux, h0, ite_false, ht]
      simp only [stepChk] at hrec
      simp [hrec, h0, ht]

/-- Pin-mode `get_hrdy` is a single GPIO read of the HRDY pin. -/
theorem get_hrdy_pin (env : Env) (p : S1d135xx)
    (hpin : p.data.hrdy ≠ PL_GPIO_NONE) (sp gp : Nat) :
    get_hrdy env p ⟨sp, gp⟩ =
      (env.gpioIn gp p.data.hrdy, ⟨sp, gp + 1⟩, [.gpioGet p.data.hrdy]) := by
  simp [get_hrdy, hpin, gpio_get]

/-- Pin-mode `wait_idle` when the pin reads ready at the first check. -/
theorem wait_idle_pin_ready (env : Env) (p : S1d135xx)
    (hpin : p.data.hrdy ≠ PL_GPIO_NONE) (sp gp : Nat)
    (hg : env.gpioIn gp p.data.hrdy ≠ 0) :
    s1d135xx_wait_idle env p ⟨sp, gp⟩ =
      (0, ⟨sp, gp + 1⟩, [.gpioGet p.data.hrdy]) := by
  have h := wait_idle_first_ready env p ⟨sp, gp⟩
    (by rw [get_hrdy_pin env p hpin]; exact hg)
  rw [h, get_hrdy_pin env p hpin]

/-- Pin-mode polling emits no command words and no chip-select transitions,
whatever the readiness outcomes. -/
theorem wait_idle_aux_pin_quiet (env : Env) (p : S1d135xx)
    (hpin : p.data.hrdy ≠ PL_GPIO_NONE) (c0 : Nat) :
    ∀ t s, cmdsOf (wait_idle_aux env p t s).2.2 = [] ∧
      csSets c0 (wait_idle_aux env p t s).2.2 = []
  | 0, s => by simp [wait_idle_aux, cmdsOf, csSets]
  | t + 1, s => by
    have hg : (get_hrdy env p s).2.2 = [.gpioGet p.data.hrdy] := by
      simp [get_hrdy, hpin, gpio_get]
    by_cases h1 : (get_hrdy env p s).1 ≠ 0
    · have hred : wait_idle_aux env p (t + 1) s =
          (t + 1, (get_hrdy env p s).2.1, (get_hrdy env p s).2.2) := by
        rw [wait_idle_aux]
        simp [h1]
      rw [hred, hg]
      exact ⟨rfl, rfl⟩
    · by_cases h2 : t = 0
      · have hred : wait_idle_aux env p (t + 1) s =
            (0, (get_hrdy env p s).2.1, (get_hrdy env p s).2.2) := by
          subst h2
          rw [wait_idle_aux]
          simp [h1]
        rw [hred, hg]
        exact ⟨rfl, rfl⟩
      · have ih := wait_idle_aux_pin_quiet env p hpin c0 t (get_hrdy env p s).2.1
        have hred : wait_idle_aux env p (t + 1) s =
            ((wait_idle_aux env p t (get_hrdy env p s).2.1).1,
             (wait_idle_aux env p t (get_hrdy env p s).2.1).2.1,
             (get_hrdy env p s).2.2 ++ mdelay 1 ++
               (wait_idle_aux env p t (get_hrdy env p s).2.1).2.2) := by
          rw [wait_idle_aux]
          simp [h1, h2]
        rw [hred, hg]
        rw [cmdsOf_append, cmdsOf_append, csSets_append, csSets_append,
          ih.1, ih.2]
        exact ⟨rfl, rfl⟩

/-- Like `wait_idle_aux_pin_quiet`, at the level of `s1d135xx_wait_idle`. -/
theorem wait_idle_pin_quiet (env : Env) (p : S1d135xx)
    (hpin : p.data.hrdy ≠ PL_GPIO_NONE) (c0 : Nat) (s : St) :
    cmdsOf (s1d135xx_wait_idle env p s).2.2 = [] ∧
      csSets c0 (s1d135xx_wait_idle env p s).2.2 = [] := by
  simp only [s1d135xx_wait_idle]
  exact wait_idle_aux_pin_quiet env p hpin c0 S1D135XX_HRDY_TIMEOUT s

/-- A single readiness check keeps the chip-select discipline: pin mode
touches chip-select not at all, register mode opens and closes one window. -/
theorem csSets_get_hrdy_wf (env : Env) (p : S1d135xx) (s : St) :
    wellFramed (csSets p.data.cs0 (get_hrdy env p s).2.2) = true := by
  by_cases hpin : p.data.hrdy ≠ PL_GPIO_NONE
  · simp [get_hrdy, hpin, gpio_get, csSets, wellFramed]
  · simp [get_hrdy, hpin, s1d135xx_read_reg, spi_read_word, set_cs, send_cmd,
      send_param, csSets, wellFramed]

/-- The polling loop keeps the chip-select discipline in every mode. -/
theorem csSets_wait_idle_aux_wf (env : Env) (p : S1d135xx) :
    ∀ t s, wellFramed (csSets p.data.cs0 (wait_idle_aux env p t s).2.2) = true
  | 0, s => by simp [wait_idle_aux, csSets, wellFramed]
  | t + 1, s => by
    rw [wait_idle_aux]
    by_cases h1 : (get_hrdy env p s).1 ≠ 0
    · simpa [h1] using csSets_get_hrdy_wf env p s
    · by_cases h2 : t = 0
      · simpa [h1, h2] using csSets_get_hrdy_wf env p s
      · have ih := csSets_wait_idle_aux_wf env p t (get_hrdy env p s).2.1
        simp only [h1, h2, ite_false, if_neg, csSets_append]
        simp [h1, h2, csSets_append]
        refine wellFramed_append _ _ (csSets_get_hrdy_wf env p s) ?_
        simpa [mdelay, csSets] using ih

/-- `s1d135xx_wait_idle` keeps the chip-select discipline in every mode. -/
theorem csSets_wait_idle_wf (env : Env) (p : S1d135xx) (s : St) :
    wellFramed (csSets p.data.cs0 (s1d135xx_wait_idle env p s).2.2) = true := by
  simp only [s1d135xx_wait_idle]
  exact csSets_wait_idle_aux_wf env p S1D135XX_HRDY_TIMEOUT s

/-- C1: `s1d135xx_wait_idle` returns success (0) as soon as the readiness
check (`get_hrdy`: dedicated HRDY pin if configured, otherwise
`(status & hrdy_mask) == hrdy_result` on the status register) evaluates true
— immediately, without consuming the bound or emitting any delay, if it is
true on the first check — and returns the Timeout failure (-1) if the
readiness check never evaluates true within the fixed bound of
`S1D135XX_HRDY_TIMEOUT` = 3000 checks at 1 ms granularity. -/
theorem C1_wait_idle_ready_or_timeout (env : Env) (p : S1d135xx) (s : St) :
    (checkVal env p s ≠ 0 →
      s1d135xx_wait_idle env p s =
        (0, (get_hrdy env p s).2.1, (get_hrdy env p s).2.2)) ∧
    (∀ k, k < S1D135XX_HRDY_TIMEOUT →
      (∀ j, j < k → checkVal env p ((stepChk env p)^[j] s) = 0) →
      checkVal env p ((stepChk env p)^[k] s) ≠ 0 →
      (s1d135xx_wait_idle env p s).1 = 0) ∧
    ((∀ j, j < S1D135XX_HRDY_TIMEOUT →
        checkVal env p ((stepChk env p)^[j] s) = 0) →
      (s1d135xx_wait_idle env p s).1 = -1) := by
  refine ⟨fun h => wait_idle_first_ready env p s h, ?_, ?_⟩
  · intro k hk hall hc
    have h := wait_idle_aux_succ env p k S1D135XX_HRDY_TIMEOUT s hk hall hc
    have hne : S1D135XX_HRDY_TIMEOUT - k ≠ 0 := by
      simp only [S1D135XX_HRDY_TIMEOUT] at hk ⊢
      omega
    simp [s1d135xx_wait_idle, h, hne]
  · intro hall
    have h := wait_idle_aux_timeout env p S1D135XX_HRDY_TIMEOUT s hall
    simp [s1d135xx_wait_idle, h]

/-- Witness for C1: an always-ready HRDY pin yields success, a never-ready
pin yields the Timeout failure. -/
theorem C1_wait_idle_ready_or_timeout_witness :
    (s1d135xx_wait_idle (envConst 1) pPin ⟨0, 0⟩).1 = 0 ∧
    (s1d135xx_wait_idle (envConst 0) pPin ⟨0, 0⟩).1 = -1 := by
  constructor
  · exact (C1_wait_idle_ready_or_timeout (envConst 1) pPin ⟨0, 0⟩).2.1 0
      (by decide) (fun j hj => absurd hj (Nat.not_lt_zero j)) (by decide)
  · exact (C1_wait_idle_ready_or_timeout (envConst 0) pPin ⟨0, 0⟩).2.2
      (fun j _ => rfl)

theorem cmdsOf_nil : cmdsOf [] = [] := rfl

theorem cmdsOf_gpioSet (pin v : Nat) (l : List Ev) :
    cmdsOf (.gpioSet pin v :: l) = cmdsOf l := rfl

theorem cmdsOf_gpioGet (pin : Nat) (l : List Ev) :
    cmdsOf (.gpioGet pin :: l) = cmdsOf l := rfl

theorem cmdsOf_cmdB (b : Nat × Nat) (l : List Ev) :
    cmdsOf (.cmdB b :: l) = b :: cmdsOf l := rfl

theorem cmdsOf_paramB (b : Nat × Nat) (l : List Ev) :
    cmdsOf (.paramB b :: l) = cmdsOf l := rfl

theorem cmdsOf_spiRead (n : Nat) (l : List Ev) :
    cmdsOf (.spiRead n :: l) = cmdsOf l := rfl

theorem cmdsOf_transferFile (l : List Ev) :
    cmdsOf (.transferFile :: l) = cmdsOf l := rfl

theorem cmdsOf_delay (ms : Nat) (l : List Ev) :
    cmdsOf (.delay ms :: l) = cmdsOf l := rfl

theorem csSets_nil (c0 : Nat) : csSets c0 [] = [] := rfl

theorem csSets_gpioSet (c0 pin v : Nat) (l : List Ev) :
    csSets c0 (.gpioSet pin v :: l) =
      if pin = c0 then v :: csSets c0 l else csSets c0 l := by
  by_cases h : pin = c0 <;> simp [csSets, List.filterMap_cons, h]

theorem csSets_gpioGet (c0 pin : Nat) (l : List Ev) :
    csSets c0 (.gpioGet pin :: l) = csSets c0 l := rfl

theorem csSets_cmdB (c0 : Nat) (b : Nat × Nat) (l : List Ev) :
    csSets c0 (.cmdB b :: l) = csSets c0 l := rfl

theorem csSets_paramB (c0 : Nat) (b : Nat × Nat) (l : List Ev) :
    csSets c0 (.paramB b :: l) = csSets c0 l := rfl

theorem csSets_spiRead (c0 n : Nat) (l : List Ev) :
    csSets c0 (.spiRead n :: l) = csSets c0 l := rfl

theorem csSets_transferFile (c0 : Nat) (l : List Ev) :
    csSets c0 (.transferFile :: l) = csSets c0 l := rfl

theorem csSets_delay (c0 ms : Nat) (l : List Ev) :
    csSets c0 (.delay ms :: l) = csSets c0 l := rfl

/-- `send_params` is the in-order list of parameter-word events. -/
theorem send_params_eq (ws : List Nat) :
    send_params ws = ws.map fun w => Ev.paramB (htobe16 w) := by
  suffices h : ∀ acc : List Ev,
      ws.foldl (fun acc w => acc ++ send_param w) acc =
        acc ++ ws.map (fun w => Ev.paramB (htobe16 w)) by
    simpa [send_params] using h []
  induction ws with
  | nil => intro acc; simp
  | cons a t ih =>
    intro acc
    rw [List.foldl_cons, ih]
    simp [send_param]

theorem csSets_send_params (c0 : Nat) (ws : List Nat) :
    csSets c0 (send_params ws) = [] := by
  rw [send_params_eq]
  induction ws with
  | nil => rfl
  | cons a t ih => simpa [List.map_cons, csSets_paramB] using ih

theorem cmdsOf_send_params (ws : List Nat) : cmdsOf (send_params ws) = [] := by
  rw [send_params_eq]
  induction ws with
  | nil => rfl
  | cons a t ih => simpa [List.map_cons, cmdsOf_paramB] using ih

/-- Full evaluation of `s1d135xx_read_reg` on arbitrary stream positions. -/
theorem read_reg_eval (env : Env) (p : S1d135xx) (reg sp gp : Nat) :
    s1d135xx_read_reg env p reg ⟨sp, gp⟩ =
      (env.spiIn (sp + 2) * 256 + env.spiIn (sp + 3), ⟨sp + 4, gp⟩,
       [.gpioSet p.data.cs0 0, .cmdB (htobe16 S1D135XX_CMD_READ_REG),
        .paramB (htobe16 reg), .spiRead 2, .spiRead 2,
        .gpioSet p.data.cs0 1]) := by
  simp [s1d135xx_read_reg, spi_read_word, set_cs, send_cmd, send_param,
    be16toh, Nat.add_assoc]

/-- C6: for every register id, `s1d135xx_read_reg` frames the `READ_REG`
command with the register id as its parameter inside one chip-select window,
reads exactly two 16-bit words from the transport, discards the first and
returns the second converted from big-endian byte order (here the bytes at
stream positions sp+2 and sp+3, most significant first). -/
theorem C6_read_reg_two_reads_discard_first (env : Env) (p : S1d135xx)
    (reg sp gp : Nat) :
    s1d135xx_read_reg env p reg ⟨sp, gp⟩ =
      (be16toh (env.spiIn (sp + 2), env.spiIn (sp + 3)), ⟨sp + 4, gp⟩,
       [.gpioSet p.data.cs0 0, .cmdB (htobe16 S1D135XX_CMD_READ_REG),
        .paramB (htobe16 reg), .spiRead 2, .spiRead 2,
        .gpioSet p.data.cs0 1]) :=
  read_reg_eval env p reg sp gp

/-- C7: `s1d135xx_hard_reset` with the reset pin set to the "none" sentinel
performs no GPIO (or any other) operation at all, succeeding trivially; with
a configured reset pin it drives the pin low, holds 4 ms, drives it high and
holds 10 ms, with no readiness check or any further event afterwards. -/
theorem C7_hard_reset (p : S1d135xx) :
    (p.data.reset = PL_GPIO_NONE → s1d135xx_hard_reset p = []) ∧
    (p.data.reset ≠ PL_GPIO_NONE →
      s1d135xx_hard_reset p =
        [.gpioSet p.data.reset 0, .delay 4, .gpioSet p.data.reset 1,
         .delay 10]) := by
  constructor <;> intro h <;> simp [s1d135xx_hard_reset, h, mdelay]

/-- Witness for C7, at a context without and a context with a reset pin. -/
theorem C7_hard_reset_witness :
    s1d135xx_hard_reset pNoReset = [] ∧
    s1d135xx_hard_reset pPin =
      [.gpioSet 1 0, .delay 4, .gpioSet 1 1, .delay 10] :=
  ⟨(C7_hard_reset pNoReset).1 rfl, (C7_hard_reset pPin).2 (by decide)⟩

/-- C8: every 16-bit command or parameter word is put on the wire as exactly
two bytes, most significant byte first (`htobe16`), independent of any host
byte order, and decoding with `be16toh` recovers the word exactly; `send_cmd`
and `send_param` write exactly this byte pair. -/
theorem C8_wire_roundtrip (w : Nat) (hw : w < 65536) :
    (htobe16 w).1 = w / 256 ∧ (htobe16 w).2 = w % 256 ∧
    (htobe16 w).1 < 256 ∧ (htobe16 w).2 < 256 ∧
    be16toh (htobe16 w) = w ∧
    (∀ p : S1d135xx, send_cmd p w = [.cmdB (htobe16 w)]) ∧
    send_param w = [.paramB (htobe16 w)] := by
  refine ⟨?_, rfl, ?_, ?_, ?_, fun p => rfl, rfl⟩
  · show w / 256 % 256 = w / 256
    omega
  · show w / 256 % 256 < 256
    omega
  · show w % 256 < 256
    omega
  · show w / 256 % 256 * 256 + w % 256 = w
    omega

/-- Witness for C8 at the word 0xABCD. -/
theorem C8_wire_roundtrip_witness :
    be16toh (htobe16 0xABCD) = 0xABCD ∧ htobe16 0xABCD = (0xAB, 0xCD) :=
  ⟨(C8_wire_roundtrip 0xABCD (by decide)).2.2.2.2.1, by decide⟩

/-- C2: for every waveform id and every area rectangle,
`s1d135xx_update_area` transmits, inside one chip-select window, exactly five
parameter words after the `UPDATE_FULL_AREA` command: the waveform mode word,
then left masked with 0x1FF (9 bits), top masked with 0x3FF (10 bits), width
masked with 0x1FF, height masked with 0x3FF; out-of-range coordinates are
silently masked, never rejected — in particular waveform id 2 with area
{left 1000, top 10, width 50, height 60} transmits the parameter words
0x0200, 488, 10, 50, 60. -/
theorem C2_update_area_params (env : Env) (p : S1d135xx) (wfid : Nat)
    (area : PlArea) (s : St) :
    (∃ rest, (s1d135xx_update_area env p wfid area s).2.2 =
      [.gpioSet p.data.cs0 0, .cmdB (htobe16 S1D135XX_CMD_UPDATE_FULL_AREA),
       .paramB (htobe16 (S1D135XX_WF_MODE wfid)),
       .paramB (htobe16 (area.left &&& 0x01FF)),
       .paramB (htobe16 (area.top &&& 0x03FF)),
       .paramB (htobe16 (area.width &&& 0x01FF)),
       .paramB (htobe16 (area.height &&& 0x03FF)),
       .gpioSet p.data.cs0 1] ++ rest) ∧
    (∃ rest, (s1d135xx_update_area env p 2 ⟨1000, 10, 50, 60⟩ s).2.2 =
      [.gpioSet p.data.cs0 0, .cmdB (htobe16 S1D135XX_CMD_UPDATE_FULL_AREA),
       .paramB (htobe16 0x0200), .paramB (htobe16 488), .paramB (htobe16 10),
       .paramB (htobe16 50), .paramB (htobe16 60),
       .gpioSet p.data.cs0 1] ++ rest) := by
  have key : ∀ (w : Nat) (a : PlArea), ∃ rest,
      (s1d135xx_update_area env p w a s).2.2 =
      [.gpioSet p.data.cs0 0, .cmdB (htobe16 S1D135XX_CMD_UPDATE_FULL_AREA),
       .paramB (htobe16 (S1D135XX_WF_MODE w)),
       .paramB (htobe16 (a.left &&& 0x01FF)),
       .paramB (htobe16 (a.top &&& 0x03FF)),
       .paramB (htobe16 (a.width &&& 0x01FF)),
       .paramB (htobe16 (a.height &&& 0x03FF)),
       .gpioSet p.data.cs0 1] ++ rest := by
    intro w a
    by_cases hw : (s1d135xx_wait_idle env p s).1 ≠ 0
    · refine ⟨(s1d135xx_wait_idle env p s).2.2, ?_⟩
      simp [s1d135xx_update_area, hw, set_cs, send_cmd, send_param,
        send_params, S1D135XX_XMASK, S1D135XX_YMASK]
    · refine ⟨(s1d135xx_wait_idle env p s).2.2 ++
        (s1d135xx_wait_dspe_trig env p (s1d135xx_wait_idle env p s).2.1).2.2,
        ?_⟩
      simp [s1d135xx_update_area, hw, set_cs, send_cmd, send_param,
        send_params, S1D135XX_XMASK, S1D135XX_YMASK]
  refine ⟨key wfid area, ?_⟩
  obtain ⟨rest, hr⟩ := key 2 ⟨1000, 10, 50, 60⟩
  refine ⟨rest, ?_⟩
  rw [hr]
  have e1 : S1D135XX_WF_MODE 2 = 0x0200 := by decide
  have e2 : (1000 : Nat) &&& 0x01FF = 488 := by decide
  have e3 : (10 : Nat) &&& 0x03FF = 10 := by decide
  have e4 : (50 : Nat) &&& 0x01FF = 50 := by decide
  have e5 : (60 : Nat) &&& 0x03FF = 60 := by decide
  simp [e1, e2, e3, e4, e5]

/-- Adding any multiple of 4096 does not change the bits selected by the
0x0F00 mask (which lie strictly below bit 12). -/
theorem land_0xF00_add (a b : Nat) :
    (a + 4096 * b) &&& 0x0F00 = a &&& 0x0F00 := by
  apply Nat.eq_of_testBit_eq
  intro i
  rw [Nat.testBit_land, Nat.testBit_land]
  by_cases hi : i < 12
  · have e1 : (a + 4096 * b) % 2 ^ 12 = a % 2 ^ 12 := by
      have h2 : (2 : Nat) ^ 12 = 4096 := by norm_num
      rw [h2]
      omega
    have t1 : ((a + 4096 * b) % 2 ^ 12).testBit i = (a + 4096 * b).testBit i := by
      rw [Nat.testBit_mod_two_pow, decide_eq_true hi, Bool.true_and]
    have t2 : (a % 2 ^ 12).testBit i = a.testBit i := by
      rw [Nat.testBit_mod_two_pow, decide_eq_true hi, Bool.true_and]
    have h1 : (a + 4096 * b).testBit i = a.testBit i := by
      rw [← t1, e1, t2]
    rw [h1]
  · have hm : (0x0F00 : Nat).testBit i = false := by
      apply Nat.testBit_lt_two_pow
      calc (0x0F00 : Nat) < 2 ^ 12 := by norm_num
        _ ≤ 2 ^ i := Nat.pow_le_pow_right (by norm_num) (by omega)
    simp [hm]

/-- Closed form of the waveform-mode macro: only the low 4 bits of the
waveform id survive, shifted into the high byte. -/
theorem wf_mode_eq (w : Nat) : S1D135XX_WF_MODE w = w % 16 * 256 := by
  have hsplit : w <<< 8 = w % 16 * 256 + 4096 * (w / 16) := by
    rw [Nat.shiftLeft_eq]
    omega
  have hsmall : ∀ v, v < 16 → v * 256 &&& 0x0F00 = v * 256 := by decide
  rw [S1D135XX_WF_MODE, hsplit, land_0xF00_add]
  exact hsmall _ (Nat.mod_lt w (by norm_num))

/-- C10: the waveform-mode parameter transmitted by `s1d135xx_update` and
`s1d135xx_update_area` equals `S1D135XX_WF_MODE wfid = (wfid <<< 8) &&&
0x0F00`: its low byte is always zero, only the low 4 bits of the waveform id
are significant, and updating with `wfid + 16` produces a run identical to
updating with `wfid`. -/
theorem C10_wf_mode_masking (env : Env) (p : S1d135xx) (wfid : Nat)
    (area : PlArea) (s : St) :
    S1D135XX_WF_MODE wfid = (wfid <<< 8) &&& 0x0F00 ∧
    S1D135XX_WF_MODE wfid = wfid % 16 * 256 ∧
    S1D135XX_WF_MODE wfid % 256 = 0 ∧
    S1D135XX_WF_MODE (wfid + 16) = S1D135XX_WF_MODE wfid ∧
    s1d135xx_update env p (wfid + 16) s = s1d135xx_update env p wfid s ∧
    s1d135xx_update_area env p (wfid + 16) area s =
      s1d135xx_update_area env p wfid area s := by
  have hmode : S1D135XX_WF_MODE (wfid + 16) = S1D135XX_WF_MODE wfid := by
    rw [wf_mode_eq, wf_mode_eq]
    omega
  refine ⟨rfl, wf_mode_eq wfid, ?_, hmode, ?_, ?_⟩
  · rw [wf_mode_eq]
    simp [Nat.mul_mod_left]
  · simp only [s1d135xx_update, hmode]
  · simp only [s1d135xx_update_area, hmode]

/-- C3: with the Run/Standby/Sleep command table {0x02, 0x04, 0x05}, a
`set_power_state` request for Standby on a device context with an always-ready
HRDY pin performs a successful preceding `wait_idle`, transmits exactly the
one-word command `S1D135XX_CMD_STBY` = 0x04 inside one chip-select window,
performs a final `wait_idle`, succeeds overall, and the remembered power state
then reads back Standby; moreover the remembered state is updated only on
overall success. -/
theorem C3_set_power_state_standby (env : Env) (p : S1d135xx) (sp gp : Nat)
    (hpin : p.data.hrdy ≠ PL_GPIO_NONE)
    (hready : ∀ g, env.gpioIn g p.data.hrdy ≠ 0) :
    (set_power_state_epdc env p .standby ⟨sp, gp⟩).1.1 = 0 ∧
    (set_power_state_epdc env p .standby ⟨sp, gp⟩).1.2.power_state =
      .standby ∧
    (set_power_state_epdc env p .standby ⟨sp, gp⟩).2.2 =
      [.gpioGet p.data.hrdy, .gpioSet p.data.cs0 0,
       .cmdB (htobe16 S1D135XX_CMD_STBY), .gpioSet p.data.cs0 1,
       .gpioGet p.data.hrdy] ∧
    (∀ state s, (s1d135xx_set_power_state env p state s).1 ≠ 0 →
      (set_power_state_epdc env p state s).1.2 = p) := by
  have hw1 := wait_idle_pin_ready env p hpin sp gp (hready gp)
  have hw2 := wait_idle_pin_ready env p hpin sp (gp + 1) (hready (gp + 1))
  have hsps : s1d135xx_set_power_state env p .standby ⟨sp, gp⟩ =
      (0, ⟨sp, gp + 2⟩,
       [.gpioGet p.data.hrdy, .gpioSet p.data.cs0 0,
        .cmdB (htobe16 S1D135XX_CMD_STBY), .gpioSet p.data.cs0 1,
        .gpioGet p.data.hrdy]) := by
    simp [s1d135xx_set_power_state, hw1, hw2, set_cs, send_cmd, pwr_cmds,
      PlEpdcPowerState.idx, List.getD]
  refine ⟨?_, ?_, ?_, ?_⟩
  · simp [set_power_state_epdc, hsps]
  · simp [set_power_state_epdc, hsps]
  · simp [set_power_state_epdc, hsps]
  · intro state s hfail
    simp [set_power_state_epdc, hfail]

/-- Witness for C3 at a concrete always-ready context. -/
theorem C3_set_power_state_standby_witness :
    (set_power_state_epdc (envConst 1) pPin .standby ⟨0, 0⟩).1.1 = 0 ∧
    (set_power_state_epdc (envConst 1) pPin .standby ⟨0, 0⟩).1.2.power_state =
      .standby :=
  ⟨(C3_set_power_state_standby (envConst 1) pPin 0 0 (by decide)
      (fun _ => one_ne_zero)).1,
   (C3_set_power_state_standby (envConst 1) pPin 0 0 (by decide)
      (fun _ => one_ne_zero)).2.1⟩

/-- C5: on a device context with a dedicated HRDY pin, when the update
succeeds (which requires its `wait_idle` calls to succeed),
`s1d135xx_update` followed immediately by `s1d135xx_wait_update_end` issues
exactly three command codes in this order — `S1D135XX_CMD_UPDATE_FULL`
(0x33), `S1D135XX_CMD_WAIT_DSPE_TRG` (0x28), `S1D135XX_CMD_WAIT_DSPE_FREND`
(0x29) — each framed inside its own chip-select assert/deassert window. -/
theorem C5_update_then_end_three_cmds (env : Env) (p : S1d135xx)
    (wfid : Nat) (s : St) (hpin : p.data.hrdy ≠ PL_GPIO_NONE)
    (h1 : (s1d135xx_update env p wfid s).1 = 0) :
    cmdsOf ((s1d135xx_update env p wfid s).2.2 ++
        (s1d135xx_wait_update_end env p
          (s1d135xx_update env p wfid s).2.1).2.2) =
      [htobe16 S1D135XX_CMD_UPDATE_FULL, htobe16 S1D135XX_CMD_WAIT_DSPE_TRG,
       htobe16 S1D135XX_CMD_WAIT_DSPE_FREND] ∧
    csSets p.data.cs0 ((s1d135xx_update env p wfid s).2.2 ++
        (s1d135xx_wait_update_end env p
          (s1d135xx_update env p wfid s).2.1).2.2) =
      [0, 1, 0, 1, 0, 1] := by
  have hq1 : ∀ st, cmdsOf (s1d135xx_wait_idle env p st).2.2 = [] :=
    fun st => (wait_idle_pin_quiet env p hpin p.data.cs0 st).1
  have hq2 : ∀ st, csSets p.data.cs0 (s1d135xx_wait_idle env p st).2.2 = [] :=
    fun st => (wait_idle_pin_quiet env p hpin p.data.cs0 st).2
  by_cases hw : (s1d135xx_wait_idle env p s).1 ≠ 0
  · exfalso
    simp [s1d135xx_update, hw] at h1
  · constructor <;>
      simp [s1d135xx_update, s1d135xx_wait_dspe_trig, s1d135xx_wait_update_end,
        hw, cmdsOf_append, csSets_append, hq1, hq2, set_cs, send_cmd,
        send_param, cmdsOf_nil, cmdsOf_gpioSet, cmdsOf_gpioGet, cmdsOf_cmdB,
        cmdsOf_paramB, csSets_nil, csSets_gpioSet, csSets_gpioGet, csSets_cmdB,
        csSets_paramB]

/-- Witness for C5 on a concrete always-ready pin context. -/
theorem C5_update_then_end_three_cmds_witness :
    cmdsOf ((s1d135xx_update (envConst 1) pPin 3 ⟨0, 0⟩).2.2 ++
        (s1d135xx_wait_update_end (envConst 1) pPin
          (s1d135xx_update (envConst 1) pPin 3 ⟨0, 0⟩).2.1).2.2) =
      [htobe16 S1D135XX_CMD_UPDATE_FULL, htobe16 S1D135XX_CMD_WAIT_DSPE_TRG,
       htobe16 S1D135XX_CMD_WAIT_DSPE_FREND] ∧
    csSets pPin.data.cs0 ((s1d135xx_update (envConst 1) pPin 3 ⟨0, 0⟩).2.2 ++
        (s1d135xx_wait_update_end (envConst 1) pPin
          (s1d135xx_update (envConst 1) pPin 3 ⟨0, 0⟩).2.1).2.2) =
      [0, 1, 0, 1, 0, 1] :=
  C5_update_then_end_three_cmds (envConst 1) pPin 3 ⟨0, 0⟩ (by decide)
    (by decide)

/-- Counterexample for C5 as frozen: on a register-poll-mode context (no
HRDY pin; an always-ready mask/result pair) every `wait_idle` call succeeds,
yet `s1d135xx_update` followed by `s1d135xx_wait_update_end` issues six
command words, not three: each readiness check issues a framed `READ_REG`
(0x10) command of its own. -/
theorem C5_three_cmds_counterexample :
    (s1d135xx_update (envConst 1) pReg 3 ⟨0, 0⟩).1 = 0 ∧
    (s1d135xx_wait_update_end (envConst 1) pReg
        (s1d135xx_update (envConst 1) pReg 3 ⟨0, 0⟩).2.1).1 = 0 ∧
    cmdsOf ((s1d135xx_update (envConst 1) pReg 3 ⟨0, 0⟩).2.2 ++
        (s1d135xx_wait_update_end (envConst 1) pReg
          (s1d135xx_update (envConst 1) pReg 3 ⟨0, 0⟩).2.1).2.2) =
      [htobe16 S1D135XX_CMD_UPDATE_FULL, htobe16 S1D135XX_CMD_READ_REG,
       htobe16 S1D135XX_CMD_WAIT_DSPE_TRG, htobe16 S1D135XX_CMD_READ_REG,
       htobe16 S1D135XX_CMD_WAIT_DSPE_FREND,
       htobe16 S1D135XX_CMD_READ_REG] ∧
    cmdsOf ((s1d135xx_update (envConst 1) pReg 3 ⟨0, 0⟩).2.2 ++
        (s1d135xx_wait_update_end (envConst 1) pReg
          (s1d135xx_update (envConst 1) pReg 3 ⟨0, 0⟩).2.1).2.2) ≠
      [htobe16 S1D135XX_CMD_UPDATE_FULL, htobe16 S1D135XX_CMD_WAIT_DSPE_TRG,
       htobe16 S1D135XX_CMD_WAIT_DSPE_FREND] := by
  decide

/-- Membership in the command words of a trace is exactly membership of the
corresponding command event. -/
theorem mem_cmdsOf (b : Nat × Nat) (evs : List Ev) :
    b ∈ cmdsOf evs ↔ Ev.cmdB b ∈ evs := by
  simp only [cmdsOf, List.mem_filterMap]
  constructor
  · rintro ⟨a, ha, hfa⟩
    cases a <;> simp_all
  · intro h
    exact ⟨Ev.cmdB b, h, rfl⟩

/-- A register read issues exactly the one command word `READ_REG`. -/
theorem cmdsOf_read_reg (env : Env) (p : S1d135xx) (reg : Nat) (s : St) :
    cmdsOf (s1d135xx_read_reg env p reg s).2.2 =
      [htobe16 S1D135XX_CMD_READ_REG] := by
  simp [s1d135xx_read_reg, spi_read_word, set_cs, send_cmd, send_param,
    cmdsOf_append, cmdsOf_gpioSet, cmdsOf_cmdB, cmdsOf_paramB, cmdsOf_spiRead,
    cmdsOf_nil]

/-- A readiness check issues no command word (pin mode) or exactly one
`READ_REG` (register mode). -/
theorem cmdsOf_get_hrdy (env : Env) (p : S1d135xx) (s : St) :
    cmdsOf (get_hrdy env p s).2.2 = [] ∨
    cmdsOf (get_hrdy env p s).2.2 = [htobe16 S1D135XX_CMD_READ_REG] := by
  by_cases hpin : p.data.hrdy ≠ PL_GPIO_NONE
  · left
    simp [get_hrdy, hpin, gpio_get, cmdsOf_gpioGet, cmdsOf_nil]
  · right
    have hev : (get_hrdy env p s).2.2 =
        (s1d135xx_read_reg env p S1D135XX_REG_SYSTEM_STATUS s).2.2 := by
      simp [get_hrdy, hpin]
    rw [hev, cmdsOf_read_reg]

/-- Every command word the polling loop ever issues is `READ_REG`, in either
readiness mode. -/
theorem cmdsOf_wait_idle_aux_readreg (env : Env) (p : S1d135xx) :
    ∀ t s b, b ∈ cmdsOf (wait_idle_aux env p t s).2.2 →
      b = htobe16 S1D135XX_CMD_READ_REG
  | 0, s, b => by
    simp [wait_idle_aux, cmdsOf_nil]
  | t + 1, s, b => by
    have hget : ∀ c, c ∈ cmdsOf (get_hrdy env p s).2.2 →
        c = htobe16 S1D135XX_CMD_READ_REG := by
      rcases cmdsOf_get_hrdy env p s with h | h <;> rw [h] <;> simp
    by_cases h1 : (get_hrdy env p s).1 ≠ 0
    · have hred : wait_idle_aux env p (t + 1) s =
          (t + 1, (get_hrdy env p s).2.1, (get_hrdy env p s).2.2) := by
        rw [wait_idle_aux]
        simp [h1]
      rw [hred]
      exact hget b
    · by_cases h2 : t = 0
      · have hred : wait_idle_aux env p (t + 1) s =
            (0, (get_hrdy env p s).2.1, (get_hrdy env p s).2.2) := by
          subst h2
          rw [wait_idle_aux]
          simp [h1]
        rw [hred]
        exact hget b
      · have hred : wait_idle_aux env p (t + 1) s =
            ((wait_idle_aux env p t (get_hrdy env p s).2.1).1,
             (wait_idle_aux env p t (get_hrdy env p s).2.1).2.1,
             (get_hrdy env p s).2.2 ++ mdelay 1 ++
               (wait_idle_aux env p t (get_hrdy env p s).2.1).2.2) := by
          rw [wait_idle_aux]
          simp [h1, h2]
        rw [hred]
        intro hb
        rw [cmdsOf_append, cmdsOf_append] at hb
        rcases List.mem_append.1 hb with hb1 | hb2
        · rcases List.mem_append.1 hb1 with hb3 | hb4
          · exact hget b hb3
          · simp [mdelay, cmdsOf_delay, cmdsOf_nil] at hb4
        · exact cmdsOf_wait_idle_aux_readreg env p t _ b hb2

/-- Every command word `s1d135xx_wait_idle` ever issues is `READ_REG`. -/
theorem cmdsOf_wait_idle_readreg (env : Env) (p : S1d135xx) (s : St)
    (b : Nat × Nat) (hb : b ∈ cmdsOf (s1d135xx_wait_idle env p s).2.2) :
    b = htobe16 S1D135XX_CMD_READ_REG := by
  simp only [s1d135xx_wait_idle] at hb
  exact cmdsOf_wait_idle_aux_readreg env p S1D135XX_HRDY_TIMEOUT s b hb

/-- C4: for every device context (either readiness mode, any readiness
timing) whose byte transfer (`transferStat = 0`) and whose `wait_idle` calls
around it succeed, `s1d135xx_load_init_code` with a `SEQ_AUTOBOOT_CMD` read
whose checksum-ok flag bit (bit 15, `S1D135XX_INIT_CODE_CHECKSUM_OK`) is
clear returns the data-integrity failure -1 without ever issuing
`INIT_STBY`; if the flag is set, it issues `INIT_STBY` in its own
chip-select window, waits the fixed 100 ms settle delay, and reports the
result of one final `wait_idle` as the overall outcome. -/
theorem C4_load_init_code_checksum (env : Env) (p : S1d135xx) (s : St)
    (hopen : env.fOpenOk = true)
    (hstat : env.transferStat = 0)
    (h1 : (s1d135xx_wait_idle env p s).1 = 0)
    (h2 : (s1d135xx_wait_idle env p (s1d135xx_wait_idle env p s).2.1).1 = 0) :
    ((s1d135xx_read_reg env p S1D135XX_REG_SEQ_AUTOBOOT_CMD
        (s1d135xx_wait_idle env p
          (s1d135xx_wait_idle env p s).2.1).2.1).1 &&&
        S1D135XX_INIT_CODE_CHECKSUM_OK = 0 →
      (s1d135xx_load_init_code env p s).1 = -1 ∧
      Ev.cmdB (htobe16 S1D135XX_CMD_INIT_STBY) ∉
        (s1d135xx_load_init_code env p s).2.2) ∧
    ((s1d135xx_read_reg env p S1D135XX_REG_SEQ_AUTOBOOT_CMD
        (s1d135xx_wait_idle env p
          (s1d135xx_wait_idle env p s).2.1).2.1).1 &&&
        S1D135XX_INIT_CODE_CHECKSUM_OK ≠ 0 →
      (s1d135xx_load_init_code env p s).1 =
        (s1d135xx_wait_idle env p
          (s1d135xx_read_reg env p S1D135XX_REG_SEQ_AUTOBOOT_CMD
            (s1d135xx_wait_idle env p
              (s1d135xx_wait_idle env p s).2.1).2.1).2.1).1 ∧
      (s1d135xx_load_init_code env p s).2.2 =
        (s1d135xx_wait_idle env p s).2.2 ++ set_cs p 0 ++
          send_cmd p S1D135XX_CMD_INIT_SET ++ [.transferFile] ++
          set_cs p 1 ++
          (s1d135xx_wait_idle env p (s1d135xx_wait_idle env p s).2.1).2.2 ++
          (s1d135xx_read_reg env p S1D135XX_REG_SEQ_AUTOBOOT_CMD
            (s1d135xx_wait_idle env p
              (s1d135xx_wait_idle env p s).2.1).2.1).2.2 ++
          set_cs p 0 ++ send_cmd p S1D135XX_CMD_INIT_STBY ++ set_cs p 1 ++
          mdelay 100 ++
          (s1d135xx_wait_idle env p
            (s1d135xx_read_reg env p S1D135XX_REG_SEQ_AUTOBOOT_CMD
              (s1d135xx_wait_idle env p
                (s1d135xx_wait_idle env p s).2.1).2.1).2.1).2.2) := by
  constructor
  · intro hbit
    constructor
    · simp [s1d135xx_load_init_code, hopen, hstat, h1, h2, hbit]
    · intro hmem
      have hev : (s1d135xx_load_init_code env p s).2.2 =
          (s1d135xx_wait_idle env p s).2.2 ++ set_cs p 0 ++
            send_cmd p S1D135XX_CMD_INIT_SET ++ [.transferFile] ++
            set_cs p 1 ++
            (s1d135xx_wait_idle env p
              (s1d135xx_wait_idle env p s).2.1).2.2 ++
            (s1d135xx_read_reg env p S1D135XX_REG_SEQ_AUTOBOOT_CMD
              (s1d135xx_wait_idle env p
                (s1d135xx_wait_idle env p s).2.1).2.1).2.2 := by
        simp [s1d135xx_load_init_code, hopen, hstat, h1, h2, hbit, set_cs,
          send_cmd, List.append_assoc]
      rw [hev] at hmem
      have hb := (mem_cmdsOf _ _).mpr hmem
      simp only [cmdsOf_append, set_cs, send_cmd, cmdsOf_gpioSet, cmdsOf_cmdB,
        cmdsOf_transferFile, cmdsOf_nil, cmdsOf_read_reg] at hb
      simp only [List.append_assoc, List.mem_append, List.cons_append,
        List.nil_append, List.mem_cons, List.not_mem_nil, or_false] at hb
      rcases hb with hb | hb | hb | hb
      · exact absurd (cmdsOf_wait_idle_readreg env p s _ hb) (by decide)
      · exact absurd hb (by decide)
      · exact absurd (cmdsOf_wait_idle_readreg env p _ _ hb) (by decide)
      · exact absurd hb (by decide)
  · intro hbit
    constructor
    · simp [s1d135xx_load_init_code, hopen, hstat, h1, h2, hbit]
    · simp [s1d135xx_load_init_code, hopen, hstat, h1, h2, hbit, set_cs,
        send_cmd, mdelay, List.append_assoc]

/-- Witness for C4 on a register-poll-mode context: with all-zero SPI input
the checksum word reads 0, the bit is clear, and the load fails with no
INIT_STBY issued; with all-0xFF SPI input the bit is set and the overall
outcome is the final `wait_idle` result. -/
theorem C4_load_init_code_checksum_witness :
    ((s1d135xx_load_init_code (envConst 1) pReg ⟨0, 0⟩).1 = -1 ∧
      Ev.cmdB (htobe16 S1D135XX_CMD_INIT_STBY) ∉
        (s1d135xx_load_init_code (envConst 1) pReg ⟨0, 0⟩).2.2) ∧
    (s1d135xx_load_init_code envFF pReg ⟨0, 0⟩).1 =
      (s1d135xx_wait_idle envFF pReg ⟨12, 0⟩).1 :=
  ⟨(C4_load_init_code_checksum (envConst 1) pReg ⟨0, 0⟩ rfl rfl (by decide)
      (by decide)).1 (by decide),
   ((C4_load_init_code_checksum envFF pReg ⟨0, 0⟩ rfl rfl (by decide)
      (by decide)).2 (by decide)).1⟩

theorem wellFramed_cons01 (l : List Nat) (h : wellFramed l = true) :
    wellFramed (0 :: 1 :: l) = true := by
  simp [wellFramed, h]

theorem csSets_read_reg (env : Env) (p : S1d135xx) (reg : Nat) (s : St) :
    csSets p.data.cs0 (s1d135xx_read_reg env p reg s).2.2 = [0, 1] := by
  simp [s1d135xx_read_reg, spi_read_word, set_cs, send_cmd, send_param,
    csSets_append, csSets_gpioSet, csSets_cmdB, csSets_paramB, csSets_spiRead,
    csSets_nil]

theorem csSets_hard_reset_wf (p : S1d135xx) :
    wellFramed (csSets p.data.cs0 (s1d135xx_hard_reset p)) = true := by
  by_cases hr : p.data.reset = PL_GPIO_NONE
  · simp [s1d135xx_hard_reset, hr, csSets_nil, wellFramed]
  · have hev : s1d135xx_hard_reset p =
        [.gpioSet p.data.reset 0, .delay 4, .gpioSet p.data.reset 1,
         .delay 10] := by
      simp [s1d135xx_hard_reset, hr, mdelay]
    rw [hev]
    by_cases hc : p.data.reset = p.data.cs0 <;>
      simp [csSets_gpioSet, csSets_delay, csSets_nil, hc, wellFramed]

theorem csSets_write_reg (p : S1d135xx) (reg val : Nat) :
    csSets p.data.cs0 (s1d135xx_write_reg p reg val) = [0, 1] := by
  simp [s1d135xx_write_reg, set_cs, send_cmd, send_params, send_param,
    csSets_append, csSets_gpioSet, csSets_cmdB, csSets_paramB, csSets_nil]

theorem csSets_cmd (p : S1d135xx) (cmd : Nat) (params : List Nat) :
    csSets p.data.cs0 (s1d135xx_cmd p cmd params) = [0, 1] := by
  simp [s1d135xx_cmd, set_cs, send_cmd, csSets_append, csSets_gpioSet,
    csSets_cmdB, csSets_nil, csSets_send_params]

theorem csSets_soft_reset_wf (env : Env) (p : S1d135xx) (s : St) :
    wellFramed (csSets p.data.cs0 (s1d135xx_soft_reset env p s).2.2) =
      true := by
  have hev : (s1d135xx_soft_reset env p s).2.2 =
      s1d135xx_write_reg p S1D135XX_REG_SOFTWARE_RESET 0 ++
        (s1d135xx_wait_idle env p s).2.2 := rfl
  rw [hev, csSets_append, csSets_write_reg]
  exact wellFramed_cons01 _ (csSets_wait_idle_wf env p s)

theorem csSets_wait_dspe_trig_wf (env : Env) (p : S1d135xx) (s : St) :
    wellFramed (csSets p.data.cs0 (s1d135xx_wait_dspe_trig env p s).2.2) =
      true := by
  have hev : (s1d135xx_wait_dspe_trig env p s).2.2 =
      s1d135xx_cmd p S1D135XX_CMD_WAIT_DSPE_TRG [] ++
        (s1d135xx_wait_idle env p s).2.2 := by
    simp [s1d135xx_wait_dspe_trig, s1d135xx_cmd, send_params]
  rw [hev, csSets_append, csSets_cmd]
  exact wellFramed_cons01 _ (csSets_wait_idle_wf env p s)

theorem csSets_wait_update_end_wf (env : Env) (p : S1d135xx) (s : St) :
    wellFramed (csSets p.data.cs0 (s1d135xx_wait_update_end env p s).2.2) =
      true := by
  have hev : (s1d135xx_wait_update_end env p s).2.2 =
      s1d135xx_cmd p S1D135XX_CMD_WAIT_DSPE_FREND [] ++
        (s1d135xx_wait_idle env p s).2.2 := by
    simp [s1d135xx_wait_update_end, s1d135xx_cmd, send_params]
  rw [hev, csSets_append, csSets_cmd]
  exact wellFramed_cons01 _ (csSets_wait_idle_wf env p s)

theorem csSets_update_wf (env : Env) (p : S1d135xx) (wfid : Nat) (s : St) :
    wellFramed (csSets p.data.cs0 (s1d135xx_update env p wfid s).2.2) =
      true := by
  by_cases hw : (s1d135xx_wait_idle env p s).1 ≠ 0
  · have hev : (s1d135xx_update env p wfid s).2.2 =
        s1d135xx_cmd p S1D135XX_CMD_UPDATE_FULL [S1D135XX_WF_MODE wfid] ++
          (s1d135xx_wait_idle env p s).2.2 := by
      simp [s1d135xx_update, hw, s1d135xx_cmd, send_params, send_param]
    rw [hev, csSets_append, csSets_cmd]
    exact wellFramed_cons01 _ (csSets_wait_idle_wf env p s)
  · have hev : (s1d135xx_update env p wfid s).2.2 =
        s1d135xx_cmd p S1D135XX_CMD_UPDATE_FULL [S1D135XX_WF_MODE wfid] ++
          ((s1d135xx_wait_idle env p s).2.2 ++
            (s1d135xx_wait_dspe_trig env p
              (s1d135xx_wait_idle env p s).2.1).2.2) := by
      simp [s1d135xx_update, hw, s1d135xx_cmd, send_params, send_param]
    rw [hev, csSets_append, csSets_cmd, csSets_append]
    simp only [List.cons_append, List.nil_append]
    refine wellFramed_cons01 _ ?_
    refine wellFramed_append _ _ (csSets_wait_idle_wf env p s) ?_
    exact csSets_wait_dspe_trig_wf env p _

theorem csSets_update_area_wf (env : Env) (p : S1d135xx) (wfid : Nat)
    (area : PlArea) (s : St) :
    wellFramed
      (csSets p.data.cs0 (s1d135xx_update_area env p wfid area s).2.2) =
      true := by
  by_cases hw : (s1d135xx_wait_idle env p s).1 ≠ 0
  · have hev : (s1d135xx_update_area env p wfid area s).2.2 =
        s1d135xx_cmd p S1D135XX_CMD_UPDATE_FULL_AREA
            [S1D135XX_WF_MODE wfid, area.left &&& S1D135XX_XMASK,
             area.top &&& S1D135XX_YMASK, area.width &&& S1D135XX_XMASK,
             area.height &&& S1D135XX_YMASK] ++
          (s1d135xx_wait_idle env p s).2.2 := by
      simp [s1d135xx_update_area, hw, s1d135xx_cmd, send_params, send_param]
    rw [hev, csSets_append, csSets_cmd]
    exact wellFramed_cons01 _ (csSets_wait_idle_wf env p s)
  · have hev : (s1d135xx_update_area env p wfid area s).2.2 =
        s1d135xx_cmd p S1D135XX_CMD_UPDATE_FULL_AREA
            [S1D135XX_WF_MODE wfid, area.left &&& S1D135XX_XMASK,
             area.top &&& S1D135XX_YMASK, area.width &&& S1D135XX_XMASK,
             area.height &&& S1D135XX_YMASK] ++
          ((s1d135xx_wait_idle env p s).2.2 ++
            (s1d135xx_wait_dspe_trig env p
              (s1d135xx_wait_idle env p s).2.1).2.2) := by
      simp [s1d135xx_update_area, hw, s1d135xx_cmd, send_params, send_param]
    rw [hev, csSets_append, csSets_cmd, csSets_append]
    simp only [List.cons_append, List.nil_append]
    refine wellFramed_cons01 _ ?_
    refine wellFramed_append _ _ (csSets_wait_idle_wf env p s) ?_
    exact csSets_wait_dspe_trig_wf env p _

theorem csSets_set_power_wf (env : Env) (p : S1d135xx)
    (state : PlEpdcPowerState) (s : St) :
    wellFramed
      (csSets p.data.cs0 (s1d135xx_set_power_state env p state s).2.2) =
      true := by
  by_cases hoff : state = .off
  · simp [s1d135xx_set_power_state, hoff, csSets_nil, wellFramed]
  · by_cases hw : (s1d135xx_wait_idle env p s).1 ≠ 0
    · have hev : (s1d135xx_set_power_state env p state s).2.2 =
          (s1d135xx_wait_idle env p s).2.2 := by
        simp [s1d135xx_set_power_state, hoff, hw]
      rw [hev]
      exact csSets_wait_idle_wf env p s
    · have hev : (s1d135xx_set_power_state env p state s).2.2 =
          (s1d135xx_wait_idle env p s).2.2 ++
            (s1d135xx_cmd p (pwr_cmds.getD state.idx 0) [] ++
              (s1d135xx_wait_idle env p
                (s1d135xx_wait_idle env p s).2.1).2.2) := by
        simp [s1d135xx_set_power_state, hoff, hw, s1d135xx_cmd, send_params]
      rw [hev, csSets_append, csSets_append, csSets_cmd]
      simp only [List.cons_append, List.nil_append]
      refine wellFramed_append _ _ (csSets_wait_idle_wf env p s) ?_
      exact wellFramed_cons01 _ (csSets_wait_idle_wf env p _)

theorem csSets_init_gate_drv_wf (env : Env) (p : S1d135xx) (s : St) :
    wellFramed (csSets p.data.cs0 (s1d135xx_init_gate_drv env p s).2.2) =
      true := by
  by_cases hps : (s1d135xx_set_power_state env p .run s).1 ≠ 0
  · have hev : (s1d135xx_init_gate_drv env p s).2.2 =
        (s1d135xx_set_power_state env p .run s).2.2 := by
      simp [s1d135xx_init_gate_drv, hps]
    rw [hev]
    exact csSets_set_power_wf env p .run s
  · have hev : (s1d135xx_init_gate_drv env p s).2.2 =
        (s1d135xx_set_power_state env p .run s).2.2 ++
          (s1d135xx_cmd p S1D135XX_CMD_EPD_GDRV_CLR [] ++
            (s1d135xx_wait_idle env p
              (s1d135xx_set_power_state env p .run s).2.1).2.2) := by
      simp [s1d135xx_init_gate_drv, hps, s1d135xx_cmd, send_params]
    rw [hev, csSets_append, csSets_append, csSets_cmd]
    simp only [List.cons_append, List.nil_append]
    refine wellFramed_append _ _ (csSets_set_power_wf env p .run s) ?_
    exact wellFramed_cons01 _ (csSets_wait_idle_wf env p _)

theorem csSets_load_init_code_wf (env : Env) (p : S1d135xx) (s : St) :
    wellFramed (csSets p.data.cs0 (s1d135xx_load_init_code env p s).2.2) =
      true := by
  by_cases hopen : !env.fOpenOk
  · simp [s1d135xx_load_init_code, hopen, csSets_nil, wellFramed]
  · by_cases hw1 : (s1d135xx_wait_idle env p s).1 ≠ 0
    · have hev : (s1d135xx_load_init_code env p s).2.2 =
          (s1d135xx_wait_idle env p s).2.2 := by
        simp [s1d135xx_load_init_code, hopen, hw1]
      rw [hev]
      exact csSets_wait_idle_wf env p s
    · have hframe1 : csSets p.data.cs0
          ((s1d135xx_wait_idle env p s).2.2 ++ set_cs p 0 ++
            send_cmd p S1D135XX_CMD_INIT_SET ++ [.transferFile] ++
            set_cs p 1) =
          csSets p.data.cs0 (s1d135xx_wait_idle env p s).2.2 ++ [0, 1] := by
        simp [csSets_append, set_cs, send_cmd, csSets_gpioSet, csSets_cmdB,
          csSets_transferFile, csSets_nil]
      by_cases hw2 : (s1d135xx_wait_idle env p
          (s1d135xx_wait_idle env p s).2.1).1 ≠ 0
      · have hev : (s1d135xx_load_init_code env p s).2.2 =
            ((s1d135xx_wait_idle env p s).2.2 ++ set_cs p 0 ++
              send_cmd p S1D135XX_CMD_INIT_SET ++ [.transferFile] ++
              set_cs p 1) ++
              (s1d135xx_wait_idle env p
                (s1d135xx_wait_idle env p s).2.1).2.2 := by
          simp [s1d135xx_load_init_code, hopen, hw1, hw2]
        rw [hev, csSets_append, hframe1, List.append_assoc]
        simp only [List.cons_append, List.nil_append]
        refine wellFramed_append _ _ (csSets_wait_idle_wf env p s) ?_
        exact wellFramed_cons01 _ (csSets_wait_idle_wf env p _)
      · by_cases hstat : env.transferStat ≠ 0
        · have hev : (s1d135xx_load_init_code env p s).2.2 =
              ((s1d135xx_wait_idle env p s).2.2 ++ set_cs p 0 ++
                send_cmd p S1D135XX_CMD_INIT_SET ++ [.transferFile] ++
                set_cs p 1) ++
                (s1d135xx_wait_idle env p
                  (s1d135xx_wait_idle env p s).2.1).2.2 := by
            simp [s1d135xx_load_init_code, hopen, hw1, hw2, hstat]
          rw [hev, csSets_append, hframe1, List.append_assoc]
          simp only [List.cons_append, List.nil_append]
          refine wellFramed_append _ _ (csSets_wait_idle_wf env p s) ?_
          exact wellFramed_cons01 _ (csSets_wait_idle_wf env p _)
        · by_cases hck : (s1d135xx_read_reg env p S1D135XX_REG_SEQ_AUTOBOOT_CMD
              (s1d135xx_wait_idle env p
                (s1d135xx_wait_idle env p s).2.1).2.1).1 &&&
              S1D135XX_INIT_CODE_CHECKSUM_OK = 0
          · have hev : (s1d135xx_load_init_code env p s).2.2 =
                ((s1d135xx_wait_idle env p s).2.2 ++ set_cs p 0 ++
                  send_cmd p S1D135XX_CMD_INIT_SET ++ [.transferFile] ++
                  set_cs p 1) ++
                  ((s1d135xx_wait_idle env p
                    (s1d135xx_wait_idle env p s).2.1).2.2 ++
                   (s1d135xx_read_reg env p S1D135XX_REG_SEQ_AUTOBOOT_CMD
                    (s1d135xx_wait_idle env p
                      (s1d135xx_wait_idle env p s).2.1).2.1).2.2) := by
              simp [s1d135xx_load_init_code, hopen, hw1, hw2, hstat, hck]
            rw [hev, csSets_append, hframe1, csSets_append, csSets_read_reg,
              List.append_assoc]
            simp only [List.cons_append, List.nil_append]
            refine wellFramed_append _ _ (csSets_wait_idle_wf env p s) ?_
            refine wellFramed_cons01 _ ?_
            refine wellFramed_append _ _ (csSets_wait_idle_wf env p _) ?_
            simp [wellFramed]
          · have hev : (s1d135xx_load_init_code env p s).2.2 =
                ((s1d135xx_wait_idle env p s).2.2 ++ set_cs p 0 ++
                  send_cmd p S1D135XX_CMD_INIT_SET ++ [.transferFile] ++
                  set_cs p 1) ++
                  ((s1d135xx_wait_idle env p
                    (s1d135xx_wait_idle env p s).2.1).2.2 ++
                   ((s1d135xx_read_reg env p S1D135XX_REG_SEQ_AUTOBOOT_CMD
                    (s1d135xx_wait_idle env p
                      (s1d135xx_wait_idle env p s).2.1).2.1).2.2 ++
                    (s1d135xx_cmd p S1D135XX_CMD_INIT_STBY [] ++
                      (mdelay 100 ++
                       (s1d135xx_wait_idle env p
                        (s1d135xx_read_reg env p
                          S1D135XX_REG_SEQ_AUTOBOOT_CMD
                          (s1d135xx_wait_idle env p
                            (s1d135xx_wait_idle env p s).2.1).2.1).2.1).2.2)))) := by
              simp [s1d135xx_load_init_code, hopen, hw1, hw2, hstat, hck,
                s1d135xx_cmd, send_params]
            rw [hev, csSets_append, hframe1]
            have hmd : csSets p.data.cs0 (mdelay 100) = [] := rfl
            simp only [csSets_append, csSets_read_reg, csSets_cmd, hmd,
              List.append_assoc, List.cons_append, List.nil_append]
            refine wellFramed_append _ _ (csSets_wait_idle_wf env p s) ?_
            refine wellFramed_cons01 _ ?_
            refine wellFramed_append _ _ (csSets_wait_idle_wf env p _) ?_
            refine wellFramed_cons01 _ ?_
            refine wellFramed_cons01 _ ?_
            exact csSets_wait_idle_wf env p _

/-- C9: every framed command sequence in every public operation deasserts
chip-select on every exit path, including early-return error paths: for every
environment (hence every success/failure combination) the chip-select
transitions of each operation form a well-nested sequence of assert/deassert
pairs, the number of asserts equals the number of deasserts, and the line
ends deasserted — in particular `s1d135xx_load_init_code` closes its
chip-select window before returning on a transfer failure or `wait_idle`
failure. -/
theorem C9_cs_discipline (env : Env) (p : S1d135xx) (s : St)
    (wfid reg val cmd : Nat) (area : PlArea) (params : List Nat)
    (state : PlEpdcPowerState) :
    csDisciplined p.data.cs0 (s1d135xx_hard_reset p) ∧
    csDisciplined p.data.cs0 (s1d135xx_soft_reset env p s).2.2 ∧
    csDisciplined p.data.cs0 (s1d135xx_load_init_code env p s).2.2 ∧
    csDisciplined p.data.cs0 (s1d135xx_init_gate_drv env p s).2.2 ∧
    csDisciplined p.data.cs0 (s1d135xx_wait_dspe_trig env p s).2.2 ∧
    csDisciplined p.data.cs0 (s1d135xx_update env p wfid s).2.2 ∧
    csDisciplined p.data.cs0 (s1d135xx_update_area env p wfid area s).2.2 ∧
    csDisciplined p.data.cs0 (s1d135xx_wait_update_end env p s).2.2 ∧
    csDisciplined p.data.cs0 (s1d135xx_wait_idle env p s).2.2 ∧
    csDisciplined p.data.cs0 (s1d135xx_set_power_state env p state s).2.2 ∧
    csDisciplined p.data.cs0 (s1d135xx_cmd p cmd params) ∧
    csDisciplined p.data.cs0 (s1d135xx_read_reg env p reg s).2.2 ∧
    csDisciplined p.data.cs0 (s1d135xx_write_reg p reg val) :=
  ⟨csDisciplined_of_wf (csSets_hard_reset_wf p),
   csDisciplined_of_wf (csSets_soft_reset_wf env p s),
   csDisciplined_of_wf (csSets_load_init_code_wf env p s),
   csDisciplined_of_wf (csSets_init_gate_drv_wf env p s),
   csDisciplined_of_wf (csSets_wait_dspe_trig_wf env p s),
   csDisciplined_of_wf (csSets_update_wf env p wfid s),
   csDisciplined_of_wf (csSets_update_area_wf env p wfid area s),
   csDisciplined_of_wf (csSets_wait_update_end_wf env p s),
   csDisciplined_of_wf (csSets_wait_idle_wf env p s),
   csDisciplined_of_wf (csSets_set_power_wf env p state s),
   csDisciplined_of_wf (by rw [csSets_cmd]; rfl),
   csDisciplined_of_wf (by rw [csSets_read_reg]; rfl),
   csDisciplined_of_wf (by rw [csSets_write_reg]; rfl)⟩
